import Mathlib

/-!
Shallow embedding of the two tax-calculation engines of the Tax-Calculator
repository (src/ma_income_tax_calc.py and src/us_income_tax_calc.py), over
exact rationals, together with theorems settling the frozen claims about the
capital-gains netting, carryforward, deduction and bracket logic.

All money amounts are modelled as `ℚ` (the Python code uses floats; the spec
treats amounts as exact money, and every constant in the code is an exact
decimal).  Python `round(x, n)` is modelled by decimal half-even rounding.
Fallible paths (unsupported tax year, invalid filing status, missing dict
key) are modelled with `Except String`; the year-parameter tables (loaded
from JSON data files by the Python constructors) are passed in explicitly as
association lists, mirroring the dict structure the code reads.
Logging calls and human-readable explanation strings, which do not influence
any returned value, are omitted.
-/

namespace TaxCalc

/-- Python `round(x, ndigits)` uses banker's rounding (round half to even);
this is its exact decimal counterpart on `ℚ`. -/
def roundHalfEven (x : ℚ) : ℤ :=
  let f := Int.floor x
  let r := x - f
  if r < 1/2 then f else if r > 1/2 then f + 1 else if f % 2 = 0 then f else f + 1

/-- `round(x, 2)` — cent precision. -/
def round2 (x : ℚ) : ℚ := (roundHalfEven (x * 100) : ℚ) / 100

/-- `round(x, 4)` — basis-point precision (used for MA rates). -/
def round4 (x : ℚ) : ℚ := (roundHalfEven (x * 10000) : ℚ) / 10000

/-- One tax bracket, as stored in the JSON bracket tables: keys `min`,
`max` (JSON `null` for the open-ended top bracket) and `rate`. -/
structure Bracket where
  min : ℚ
  max : Option ℚ
  rate : ℚ
deriving DecidableEq

/-! ## Massachusetts engine (src/ma_income_tax_calc.py) -/

/-- Per-year MA parameters (one entry of data/ma_tax_data.json).
`surtax_threshold = 0` models a falsy (absent/zero) threshold, matching the
Python truthiness test `surtax_threshold and agi >= surtax_threshold`. -/
structure MAYearParams where
  standard_exemption : List (String × ℚ)
  max_int_div_adj : ℚ
  surtax_threshold : ℚ
  surtax : ℚ
  ordinary_rate : ℚ
  long_term_rate : ℚ
  short_term_rate : ℚ

/-- Arguments of `MAIncomeTaxCalculator.calc`, with the Python defaults. -/
structure MAInput where
  tax_year : ℕ
  ordinary_income : ℚ := 0
  investment_income : ℚ := 0
  short_term_gains : ℚ := 0
  long_term_gains : ℚ := 0
  deductions : ℚ := 0
  py_capital_loss_carryforward : ℚ := 0
  filing_status : String := "MFJ"
  custom_standard_deduction : Option ℚ := none

/-- The sign-netting step of `MAIncomeTaxCalculator.calc` (lines 93-103):
if one of short/long term is positive and the other negative, the
smaller-magnitude amount is offset between them.  Returns
`(net_short_term, net_long_term, offset_amount)`; `offset_amount` is 0 when
no netting occurs. -/
def signNetting (net_short_term net_long_term : ℚ) : ℚ × ℚ × ℚ :=
  if net_short_term > 0 ∧ net_long_term < 0 then
    let offset_amount := min net_short_term (abs net_long_term)
    (net_short_term - offset_amount, net_long_term + offset_amount, offset_amount)
  else if net_short_term < 0 ∧ net_long_term > 0 then
    let offset_amount := min net_long_term (abs net_short_term)
    (net_short_term + offset_amount, net_long_term - offset_amount, offset_amount)
  else
    (net_short_term, net_long_term, 0)

/-- Prior-year carryforward absorption of `MAIncomeTaxCalculator.calc`
(lines 105-115): a positive carryforward first offsets a positive
short-term balance, then a positive long-term balance.  Returns
`(net_short_term, net_long_term, loss_carryforward)`. -/
def absorbCarryforward (net_short_term net_long_term loss_carryforward : ℚ) :
    ℚ × ℚ × ℚ :=
  if loss_carryforward > 0 then
    let o1 := if net_short_term > 0 then min net_short_term loss_carryforward else 0
    let st1 := net_short_term - o1
    let cf1 := loss_carryforward - o1
    let o2 := if cf1 > 0 ∧ net_long_term > 0 then min net_long_term cf1 else 0
    (st1, net_long_term - o2, cf1 - o2)
  else
    (net_short_term, net_long_term, loss_carryforward)

/-- All local values computed by `MAIncomeTaxCalculator.calc`, in source
order, before the final rounding into `ma_tax_result`. -/
structure MATrace where
  standard_exemption : ℚ
  net_short_term : ℚ
  net_long_term : ℚ
  offset_balance : ℚ
  adjusted_investment_income : ℚ
  capital_loss_carryforward : ℚ
  taxable_short_term_gains : ℚ
  taxable_long_term_gains : ℚ
  adjusted_ordinary_income : ℚ
  total_capital_gains : ℚ
  agi : ℚ
  is_surtax : Bool
  surtax : ℚ
  taxable_short_term_final : ℚ
  taxable_long_term_final : ℚ
  taxable_ordinary_income : ℚ
  total_taxable_income : ℚ
  ordinary_rate : ℚ
  long_term_rate : ℚ
  short_term_rate : ℚ
  ordinary_tax : ℚ
  long_term_tax : ℚ
  short_term_tax : ℚ
  total_income_tax : ℚ
deriving Inhabited

/-- `MAIncomeTaxCalculator.calc` (lines 53-208), producing the full trace of
intermediate values.  Validation mirrors the source: `get_year_params`
raises for an unknown year; the filing status is validated only inside
`get_standard_deduction`, which is bypassed when a custom standard
deduction is supplied. -/
def MACalcTrace (tax_years : List (ℕ × MAYearParams)) (a : MAInput) :
    Except String MATrace :=
  match tax_years.lookup a.tax_year with
  | none => .error "Tax year not supported"
  | some year_params =>
  match (match a.custom_standard_deduction with
         | some c => Except.ok c
         | none =>
           match year_params.standard_exemption.lookup a.filing_status with
           | none => Except.error ("Invalid filing status: " ++ a.filing_status)
           | some d => Except.ok d) with
  | .error e => .error e
  | .ok standard_exemption =>
    let n1 := signNetting a.short_term_gains a.long_term_gains
    let n2 := absorbCarryforward n1.1 n1.2.1 a.py_capital_loss_carryforward
    let net_short_term := n2.1
    let net_long_term := n2.2.1
    let loss_carryforward := n2.2.2
    let offset_balance := loss_carryforward - min 0 net_short_term - min 0 net_long_term
    let investment_income_adjustment := min year_params.max_int_div_adj offset_balance
    let adjusted_investment_income :=
      if offset_balance > 0 then max 0 (a.investment_income - investment_income_adjustment)
      else a.investment_income
    let offset_balance2 :=
      if offset_balance > 0 then offset_balance - investment_income_adjustment
      else offset_balance
    let capital_loss_carryforward := if offset_balance2 > 0 then offset_balance2 else 0
    let taxable_short_term_gains := max 0 net_short_term
    let taxable_long_term_gains := max 0 net_long_term
    let adjusted_ordinary_income := max 0 (a.ordinary_income - a.deductions)
    let total_capital_gains := taxable_short_term_gains + taxable_long_term_gains
    let agi := adjusted_ordinary_income + adjusted_investment_income + total_capital_gains
    let is_surtax :=
      decide (year_params.surtax_threshold ≠ 0 ∧ agi ≥ year_params.surtax_threshold)
    let surtax := if is_surtax then year_params.surtax else 0
    let deduction_remaining0 := standard_exemption
    let taxable_short_term_final :=
      if agi > standard_exemption then max 0 (taxable_short_term_gains - deduction_remaining0)
      else 0
    let deduction_remaining1 := max 0 (deduction_remaining0 - taxable_short_term_gains)
    let taxable_long_term_final :=
      if agi > standard_exemption then max 0 (taxable_long_term_gains - deduction_remaining1)
      else 0
    let deduction_remaining2 := max 0 (deduction_remaining1 - taxable_long_term_gains)
    let taxable_ordinary_income :=
      if agi > standard_exemption then
        max 0 (adjusted_ordinary_income + adjusted_investment_income - deduction_remaining2)
      else 0
    let total_taxable_income :=
      taxable_ordinary_income + taxable_long_term_final + taxable_short_term_final
    let ordinary_rate := year_params.ordinary_rate + surtax
    let long_term_rate := year_params.long_term_rate + surtax
    let short_term_rate := year_params.short_term_rate + surtax
    let ordinary_tax := taxable_ordinary_income * ordinary_rate
    let long_term_tax := taxable_long_term_final * long_term_rate
    let short_term_tax := taxable_short_term_final * short_term_rate
    let total_income_tax := ordinary_tax + long_term_tax + short_term_tax
    .ok {
      standard_exemption := standard_exemption
      net_short_term := net_short_term
      net_long_term := net_long_term
      offset_balance := offset_balance2
      adjusted_investment_income := adjusted_investment_income
      capital_loss_carryforward := capital_loss_carryforward
      taxable_short_term_gains := taxable_short_term_gains
      taxable_long_term_gains := taxable_long_term_gains
      adjusted_ordinary_income := adjusted_ordinary_income
      total_capital_gains := total_capital_gains
      agi := agi
      is_surtax := is_surtax
      surtax := surtax
      taxable_short_term_final := taxable_short_term_final
      taxable_long_term_final := taxable_long_term_final
      taxable_ordinary_income := taxable_ordinary_income
      total_taxable_income := total_taxable_income
      ordinary_rate := ordinary_rate
      long_term_rate := long_term_rate
      short_term_rate := short_term_rate
      ordinary_tax := ordinary_tax
      long_term_tax := long_term_tax
      short_term_tax := short_term_tax
      total_income_tax := total_income_tax }

/-- The `ma_tax_result` dataclass, with the rounding applied on return. -/
structure ma_tax_result where
  tax_year : ℕ
  filing_status : String
  ordinary_tax : ℚ
  ltcg_tax : ℚ
  stcg_tax : ℚ
  ma_income_tax : ℚ
  taxable_income : ℚ
  taxable_ordinary : ℚ
  taxable_long_term : ℚ
  taxable_short_term : ℚ
  is_surtax : Bool
  ordinary_rate : ℚ
  long_term_rate : ℚ
  short_term_rate : ℚ
  capital_loss_carryforward : ℚ
deriving Inhabited

/-- Packaging of the MA trace into the returned `ma_tax_result`
(lines 192-208 of src/ma_income_tax_calc.py). -/
def maResultOfTrace (a : MAInput) (t : MATrace) : ma_tax_result :=
  { tax_year := a.tax_year
    filing_status := a.filing_status
    ordinary_tax := round2 t.ordinary_tax
    ltcg_tax := round2 t.long_term_tax
    stcg_tax := round2 t.short_term_tax
    ma_income_tax := round2 t.total_income_tax
    taxable_income := round2 t.total_taxable_income
    taxable_ordinary := round2 t.taxable_ordinary_income
    taxable_long_term := round2 t.taxable_long_term_final
    taxable_short_term := round2 t.taxable_short_term_final
    is_surtax := t.is_surtax
    ordinary_rate := round4 t.ordinary_rate
    long_term_rate := round4 t.long_term_rate
    short_term_rate := round4 t.short_term_rate
    capital_loss_carryforward := round2 t.capital_loss_carryforward }

/-- `MAIncomeTaxCalculator.calc` as the caller sees it. -/
def MACalc (tax_years : List (ℕ × MAYearParams)) (a : MAInput) :
    Except String ma_tax_result :=
  (MACalcTrace tax_years a).map (maResultOfTrace a)

/-! ## US federal engine (src/us_income_tax_calc.py) -/

/-- Per-year federal parameters (one entry of data/us_tax_data.json).  The
per-filing-status dicts are kept as association lists so that a missing
status key raises, as a Python dict access does.  The nested
`salt_deduction.max` and `net_investment_income_tax.{thresholds,rate}`
dicts are flattened into fields. -/
structure USYearData where
  ordinary_income_brackets : List (String × List Bracket)
  long_term_capital_gains_brackets : List (String × List Bracket)
  standard_deductions : List (String × ℚ)
  salt_deduction_max : ℚ
  niit_thresholds : List (String × ℚ)
  niit_rate : ℚ

/-- Arguments of `USIncomeTaxCalculator.calc`, with the Python defaults. -/
structure USInput where
  tax_year : ℕ
  filing_status : String
  income_wages : ℚ := 0
  income_int : ℚ := 0
  income_div : ℚ := 0
  income_div_qualified : ℚ := 0
  income_inv_other : ℚ := 0
  income_other : ℚ := 0
  cg_short_term : ℚ := 0
  cg_long_term : ℚ := 0
  deduct_medical : ℚ := 0
  deduct_property_tax : ℚ := 0
  deduct_state_income_tax : ℚ := 0
  deduct_charity : ℚ := 0
  deduct_margin_int : ℚ := 0
  deduct_mortgage_int : ℚ := 0
  deduct_mortgage_rate : ℚ := 0
  deduct_mortgage_orig_year : ℤ := 0
  py_inv_int_carryforward : ℚ := 0
  py_short_term_loss_carryforward : ℚ := 0
  py_long_term_loss_carryforward : ℚ := 0

/-- `USIncomeTaxCalculator.get_filing_statuses` (lines 67-71): the keys of
the ordinary-income bracket dict of the sample year
`sorted(tax_data.keys())[0]`, i.e. the smallest available year.  (Python
raises on an empty table; `calc` only reaches this after the year lookup
succeeded, so the table is nonempty there and the `[]` fallbacks are
unreachable from `calc`.) -/
def getFilingStatuses (tax_data : List (ℕ × USYearData)) : List String :=
  match (tax_data.map Prod.fst).min? with
  | none => []
  | some sample_year =>
    match tax_data.lookup sample_year with
    | none => []
    | some yd => yd.ordinary_income_brackets.map Prod.fst

/-- One iteration step state of `_calculate_bracket_tax` (lines 90-112):
walks the brackets accumulating `(total_tax, marginal_rate)`.  The Python
`break` conditions are modelled exactly, including the truthiness test
`if bracket_max and income <= bracket_max` (a `None` or `0` upper bound
never breaks). -/
def calculateBracketTaxGo (income : ℚ) : List Bracket → ℚ → ℚ → ℚ × ℚ
  | [], total_tax, marginal_rate => (total_tax, marginal_rate)
  | b :: rest, total_tax, marginal_rate =>
    if income ≤ b.min then (total_tax, marginal_rate)
    else
      match b.max with
      | none =>
        calculateBracketTaxGo income rest (total_tax + (income - b.min) * b.rate) b.rate
      | some mx =>
        if income ≤ mx then
          if mx = 0 then
            calculateBracketTaxGo income rest (total_tax + (income - b.min) * b.rate) b.rate
          else (total_tax + (income - b.min) * b.rate, b.rate)
        else
          calculateBracketTaxGo income rest (total_tax + (mx - b.min) * b.rate) marginal_rate

/-- `USIncomeTaxCalculator._calculate_bracket_tax` (lines 73-114):
progressive bracket tax; returns `(tax_owed, marginal_rate)`, and `(0, 0)`
for a non-positive income. -/
def calculateBracketTax (income : ℚ) (brackets : List Bracket) : ℚ × ℚ :=
  if income ≤ 0 then (0, 0) else calculateBracketTaxGo income brackets 0 0

/-- `USIncomeTaxCalculator._calculate_niit` (lines 116-141).  The
threshold lookup by filing status happens inside the helper, as in the
source. -/
def calculateNiit (investment_income agi : ℚ) (filing_status : String)
    (year_data : USYearData) : Except String ℚ :=
  match year_data.niit_thresholds.lookup filing_status with
  | none => .error "KeyError: niit thresholds"
  | some threshold =>
    .ok (if agi ≤ threshold then 0
         else min investment_income (agi - threshold) * year_data.niit_rate)

/-- `USIncomeTaxCalculator._calculate_medical_expense_deduction`
(lines 143-172): expenses deductible only above 7.5 percent of AGI.  The
explanation string, used only for logging, is omitted. -/
def calculateMedicalExpenseDeduction (medical_expenses agi : ℚ) : ℚ :=
  if medical_expenses ≤ 0 then 0
  else if medical_expenses > agi * 0.075 then medical_expenses - agi * 0.075
  else 0

/-- `USIncomeTaxCalculator._calculate_investment_interest_deduction`
(lines 174-193): limited to net investment income (investment income plus
any positive short-term gain) with the excess carried over.  Returns
`(allowable_deduction, carryover)`; the explanation string is omitted. -/
def calculateInvestmentInterestDeduction
    (investment_interest_expense investment_income stcg py_carryover : ℚ) : ℚ × ℚ :=
  if investment_interest_expense ≤ 0 ∧ py_carryover ≤ 0 then (0, 0)
  else
    let total_inv_inc := investment_income + max 0 stcg
    let total_investment_interest := investment_interest_expense + py_carryover
    if total_inv_inc ≥ total_investment_interest then (total_investment_interest, 0)
    else (total_inv_inc, total_investment_interest - total_inv_inc)

/-- `USIncomeTaxCalculator._calculate_mortgage_interest_deduction`
(lines 195-250).  The unused `tax_year` parameter and the explanation
string are omitted. -/
def calculateMortgageInterestDeduction (mortgage_interest mortgage_rate : ℚ)
    (mortgage_origination_year : ℤ) (filing_status : String) : ℚ :=
  if mortgage_interest ≤ 0 then 0
  else
    let mortgage_balance := if mortgage_rate > 0 then mortgage_interest / mortgage_rate else 0
    let acquisition_limit :=
      if mortgage_origination_year ≥ 2018 ∨
         (mortgage_origination_year = 2017 ∧ mortgage_balance > 0) then
        if filing_status = "married_filing_separately" then (375000 : ℚ) else 750000
      else
        if filing_status = "married_filing_separately" then (500000 : ℚ) else 1000000
    if mortgage_balance ≤ acquisition_limit then mortgage_interest
    else
      let qualifying_share := if mortgage_balance > 0 then acquisition_limit / mortgage_balance else 0
      mortgage_interest * qualifying_share

/-- Loop body of `USIncomeTaxCalculator._calculate_capital_gains_tax`
(lines 270-277).  `current_income_level` can become `float('inf')` in the
source (after the open-ended bracket); that is modelled by `none`. -/
def cgTaxLoop (total_taxable_income taxable_capital_gains : ℚ) :
    List Bracket → ℚ → Option ℚ → ℚ
  | [], ltcg_tax, _ => ltcg_tax
  | b :: rest, ltcg_tax, current_income_level =>
    match current_income_level with
    | none =>
      cgTaxLoop total_taxable_income taxable_capital_gains rest
        (ltcg_tax + min 0 taxable_capital_gains * b.rate) none
    | some cur =>
      let upper := match b.max with
        | none => total_taxable_income
        | some m => min total_taxable_income m
      let taxable_in_bracket := max 0 (upper - max b.min cur)
      let ltcg_tax2 := ltcg_tax + min taxable_in_bracket taxable_capital_gains * b.rate
      match b.max with
      | none => cgTaxLoop total_taxable_income taxable_capital_gains rest ltcg_tax2 none
      | some m =>
        cgTaxLoop total_taxable_income taxable_capital_gains rest ltcg_tax2 (some (max cur m))

/-- `USIncomeTaxCalculator._calculate_capital_gains_tax` (lines 252-279):
income-stacked LTCG tax.  Returns `(ltcg_tax, ltcg_tax_rate)`; the bracket
dict is only accessed when there are positive taxable capital gains, as in
the source. -/
def calculateCapitalGainsTax (taxable_ordinary_income taxable_capital_gains
    total_taxable_income : ℚ) (filing_status : String) (year_data : USYearData) :
    Except String (ℚ × ℚ) :=
  if taxable_capital_gains > 0 then
    match year_data.long_term_capital_gains_brackets.lookup filing_status with
    | none => .error "KeyError: capital gains brackets"
    | some capital_gains_brackets =>
      let ltcg_tax := cgTaxLoop total_taxable_income taxable_capital_gains
        capital_gains_brackets 0 (some taxable_ordinary_income)
      .ok (ltcg_tax, ltcg_tax / taxable_capital_gains)
  else .ok (0, 0)

/-- Outcome of the loss-handling block of `USIncomeTaxCalculator.calc`
(lines 361-379). -/
structure USNetting where
  capital_loss_income_deduction : ℚ
  agi : ℚ
  capital_loss_carry_forward : ℚ
  lt_loss_carry_forward : ℚ
  st_loss_carry_forward : ℚ

/-- Lines 361-379 of `USIncomeTaxCalculator.calc`: the capped $3,000
capital-loss offset against ordinary income and the carryforward split.
`cg_long_term` and `cg_short_term` here are the current-year figures after
the prior-year carryforward subtraction (source lines 351-352); the local
percentage variables are the source's `ltcg_loss_ratio`/`stcg_loss_ratio`. -/
def usApplyNetting (ordinary_income net_ltcg cg_long_term cg_short_term : ℚ) : USNetting :=
  if net_ltcg < 0 then
    let capital_loss_income_deduction := min (abs net_ltcg) 3000
    let capital_loss_carry_forward := abs net_ltcg - capital_loss_income_deduction
    let ltcg_loss_pct := if cg_long_term < 0 then abs cg_long_term / net_ltcg else 0
    let stcg_loss_pct := if cg_short_term < 0 then 100 - ltcg_loss_pct else 0
    { capital_loss_income_deduction := capital_loss_income_deduction
      agi := ordinary_income - capital_loss_income_deduction
      capital_loss_carry_forward := capital_loss_carry_forward
      lt_loss_carry_forward := capital_loss_carry_forward * ltcg_loss_pct * 0.01
      st_loss_carry_forward := capital_loss_carry_forward * stcg_loss_pct * 0.01 }
  else
    { capital_loss_income_deduction := 0
      agi := ordinary_income + max 0 net_ltcg
      capital_loss_carry_forward := 0
      lt_loss_carry_forward := 0
      st_loss_carry_forward := 0 }

/-- All local values computed by `USIncomeTaxCalculator.calc`, in source
order, before the final rounding into `us_tax_result`.  `cg_long_term` and
`cg_short_term` are the reassigned values after the prior-year carryforward
subtraction (source lines 351-352). -/
structure USTrace where
  gross_income : ℚ
  gross_ltcg : ℚ
  cg_long_term : ℚ
  cg_short_term : ℚ
  net_ltcg : ℚ
  ordinary_income : ℚ
  capital_loss_income_deduction : ℚ
  agi : ℚ
  capital_loss_carry_forward : ℚ
  lt_loss_carry_forward : ℚ
  st_loss_carry_forward : ℚ
  salt_deduction : ℚ
  mortgage_interest_deduction : ℚ
  investment_int_deduction : ℚ
  inv_int_carryforward : ℚ
  medical_exp_deduction : ℚ
  itemized_deductions : ℚ
  standard_deduction : ℚ
  total_deductions : ℚ
  deduction_used : String
  taxable_ordinary_income : ℚ
  taxable_capital_gains : ℚ
  total_taxable_income : ℚ
  ordinary_tax : ℚ
  marginal_rate : ℚ
  ltcg_tax : ℚ
  ltcg_tax_rate : ℚ
  investment_income : ℚ
  niit_tax : ℚ
  total_federal_tax : ℚ
  effective_tax_rate : ℚ
  effective_tax_rate_agi : ℚ
deriving Inhabited

/-- `USIncomeTaxCalculator.calc` (lines 281-479), producing the full trace
of intermediate values.  Validation and dict-access order mirror the
source: tax-year check, filing-status check against
`get_filing_statuses()`, then the per-status dict accesses in source line
order (standard deductions line 419, ordinary brackets line 437, LTCG
brackets inside `_calculate_capital_gains_tax`, NIIT thresholds inside
`_calculate_niit`). -/
def USCalcTrace (tax_data : List (ℕ × USYearData)) (a : USInput) :
    Except String USTrace :=
  match tax_data.lookup a.tax_year with
  | none => .error "Tax year not supported"
  | some year_data =>
  if a.filing_status ∈ getFilingStatuses tax_data then
    let gross_income := a.income_wages + a.income_int + a.income_div + a.income_inv_other
      + a.income_other + max 0 a.cg_short_term
    let gross_ltcg := a.cg_long_term + min 0 a.cg_short_term
    let cg_long_term := a.cg_long_term - a.py_long_term_loss_carryforward
    let cg_short_term := a.cg_short_term - a.py_short_term_loss_carryforward
    let net_ltcg := cg_long_term + min 0 cg_short_term
    let ordinary_income := a.income_wages + a.income_int + a.income_div + a.income_inv_other
      + a.income_other + max 0 cg_short_term
    let n := usApplyNetting ordinary_income net_ltcg cg_long_term cg_short_term
    let salt_deduction :=
      min (a.deduct_property_tax + a.deduct_state_income_tax) year_data.salt_deduction_max
    let mortgage_interest_deduction := calculateMortgageInterestDeduction
      a.deduct_mortgage_int a.deduct_mortgage_rate a.deduct_mortgage_orig_year a.filing_status
    let ii := calculateInvestmentInterestDeduction a.deduct_margin_int
      (a.income_int + a.income_div - a.income_div_qualified + a.income_inv_other)
      cg_short_term a.py_inv_int_carryforward
    let medical_exp_deduction := calculateMedicalExpenseDeduction a.deduct_medical n.agi
    let itemized_deductions := salt_deduction + mortgage_interest_deduction + ii.1
      + medical_exp_deduction + a.deduct_charity
    match year_data.standard_deductions.lookup a.filing_status with
    | none => .error "KeyError: standard deductions"
    | some standard_deduction =>
    let total_deductions :=
      if itemized_deductions > standard_deduction then itemized_deductions
      else standard_deduction
    let deduction_used :=
      if itemized_deductions > standard_deduction then "itemized" else "standard"
    let taxable_ordinary_income :=
      max 0 (ordinary_income - total_deductions - a.income_div_qualified)
    let taxable_capital_gains := max 0 net_ltcg + a.income_div_qualified
    let total_taxable_income := taxable_ordinary_income + taxable_capital_gains
    match year_data.ordinary_income_brackets.lookup a.filing_status with
    | none => .error "KeyError: ordinary brackets"
    | some ordinary_brackets =>
    let ot := calculateBracketTax taxable_ordinary_income ordinary_brackets
    match calculateCapitalGainsTax taxable_ordinary_income taxable_capital_gains
      total_taxable_income a.filing_status year_data with
    | .error e => .error e
    | .ok lt =>
    let investment_income := a.income_int + a.income_div + cg_long_term + cg_short_term
      + a.income_inv_other
    match calculateNiit investment_income n.agi a.filing_status year_data with
    | .error e => .error e
    | .ok niit_tax =>
    let total_federal_tax := ot.1 + lt.1 + niit_tax
    let effective_tax_rate_agi := if n.agi > 0 then total_federal_tax / n.agi * 100 else 0
    let effective_tax_rate :=
      if total_taxable_income > 0 then total_federal_tax / total_taxable_income * 100 else 0
    .ok {
      gross_income := gross_income
      gross_ltcg := gross_ltcg
      cg_long_term := cg_long_term
      cg_short_term := cg_short_term
      net_ltcg := net_ltcg
      ordinary_income := ordinary_income
      capital_loss_income_deduction := n.capital_loss_income_deduction
      agi := n.agi
      capital_loss_carry_forward := n.capital_loss_carry_forward
      lt_loss_carry_forward := n.lt_loss_carry_forward
      st_loss_carry_forward := n.st_loss_carry_forward
      salt_deduction := salt_deduction
      mortgage_interest_deduction := mortgage_interest_deduction
      investment_int_deduction := ii.1
      inv_int_carryforward := ii.2
      medical_exp_deduction := medical_exp_deduction
      itemized_deductions := itemized_deductions
      standard_deduction := standard_deduction
      total_deductions := total_deductions
      deduction_used := deduction_used
      taxable_ordinary_income := taxable_ordinary_income
      taxable_capital_gains := taxable_capital_gains
      total_taxable_income := total_taxable_income
      ordinary_tax := ot.1
      marginal_rate := ot.2
      ltcg_tax := lt.1
      ltcg_tax_rate := lt.2
      investment_income := investment_income
      niit_tax := niit_tax
      total_federal_tax := total_federal_tax
      effective_tax_rate := effective_tax_rate
      effective_tax_rate_agi := effective_tax_rate_agi }
  else .error "Filing status not supported"

/-- The `us_tax_result` dataclass (lines 10-33), with the rounding applied
on return (lines 456-479); `gross_ordinary_income` and `gross_ltcg` are
returned unrounded, as in the source. -/
structure us_tax_result where
  tax_year : ℕ
  filing_status : String
  gross_ordinary_income : ℚ
  gross_ltcg : ℚ
  ordinary_tax : ℚ
  ltcg_tax : ℚ
  niit_tax : ℚ
  total_federal_tax : ℚ
  taxable_income : ℚ
  taxable_ordinary_income : ℚ
  taxable_ltcg_income : ℚ
  agi : ℚ
  itemized_deductions : ℚ
  standard_deduction : ℚ
  deduction_used : String
  effective_tax_rate : ℚ
  effective_tax_rate_agi : ℚ
  marginal_tax_rate : ℚ
  ltcg_tax_rate : ℚ
  inv_int_carryforward : ℚ
  st_loss_carryforward : ℚ
  lt_loss_carryforward : ℚ
deriving Inhabited

/-- Packaging of the US trace into the returned `us_tax_result`
(lines 456-479 of src/us_income_tax_calc.py). -/
def usResultOfTrace (a : USInput) (t : USTrace) : us_tax_result :=
  { tax_year := a.tax_year
    filing_status := a.filing_status
    gross_ordinary_income := t.ordinary_income
    gross_ltcg := t.net_ltcg
    ordinary_tax := round2 t.ordinary_tax
    ltcg_tax := round2 t.ltcg_tax
    niit_tax := round2 t.niit_tax
    total_federal_tax := round2 t.total_federal_tax
    taxable_income := round2 t.total_taxable_income
    taxable_ordinary_income := round2 t.taxable_ordinary_income
    taxable_ltcg_income := round2 t.taxable_capital_gains
    agi := round2 t.agi
    itemized_deductions := round2 t.itemized_deductions
    standard_deduction := round2 t.standard_deduction
    deduction_used := t.deduction_used
    effective_tax_rate := round2 t.effective_tax_rate
    effective_tax_rate_agi := round2 t.effective_tax_rate_agi
    marginal_tax_rate := round2 (t.marginal_rate * 100)
    ltcg_tax_rate := round2 (t.ltcg_tax_rate * 100)
    inv_int_carryforward := round2 t.inv_int_carryforward
    st_loss_carryforward := round2 t.st_loss_carry_forward
    lt_loss_carryforward := round2 t.lt_loss_carry_forward }

/-- `USIncomeTaxCalculator.calc` as the caller sees it. -/
def USCalc (tax_data : List (ℕ × USYearData)) (a : USInput) :
    Except String us_tax_result :=
  (USCalcTrace tax_data a).map (usResultOfTrace a)

/-! ## Concrete parameter tables used for witnesses and counterexamples

A small synthetic but well-formed federal table (one year, one filing
status, in the shape of data/us_tax_data.json) and an MA table in the shape
of data/ma_tax_data.json. -/

def usTestYearData : USYearData :=
  { ordinary_income_brackets :=
      [("single", [{ min := 0, max := some 50000, rate := 0.10 },
                   { min := 50000, max := none, rate := 0.22 }])]
    long_term_capital_gains_brackets :=
      [("single", [{ min := 0, max := some 47000, rate := 0 },
                   { min := 47000, max := none, rate := 0.15 }])]
    standard_deductions := [("single", 30000)]
    salt_deduction_max := 10000
    niit_thresholds := [("single", 200000)]
    niit_rate := 0.038 }

def usTestData : List (ℕ × USYearData) := [(2024, usTestYearData)]

def maTestParams : MAYearParams :=
  { standard_exemption := [("MFJ", 24000)]
    max_int_div_adj := 2000
    surtax_threshold := 1000000
    surtax := 0.04
    ordinary_rate := 0.05
    long_term_rate := 0.05
    short_term_rate := 0.085 }

def maTestData : List (ℕ × MAYearParams) := [(2024, maTestParams)]

/-- Scenario-C style federal input: wages 80000 on the synthetic table. -/
def usScenarioCInput : USInput :=
  { tax_year := 2024, filing_status := "single", income_wages := 80000 }

/-- Hand-evaluated trace of the federal engine on `usScenarioCInput`. -/
def usScenarioCTrace : USTrace :=
  { gross_income := 80000, gross_ltcg := 0, cg_long_term := 0, cg_short_term := 0,
    net_ltcg := 0, ordinary_income := 80000, capital_loss_income_deduction := 0,
    agi := 80000, capital_loss_carry_forward := 0, lt_loss_carry_forward := 0,
    st_loss_carry_forward := 0, salt_deduction := 0, mortgage_interest_deduction := 0,
    investment_int_deduction := 0, inv_int_carryforward := 0, medical_exp_deduction := 0,
    itemized_deductions := 0, standard_deduction := 30000, total_deductions := 30000,
    deduction_used := "standard", taxable_ordinary_income := 50000,
    taxable_capital_gains := 0, total_taxable_income := 50000, ordinary_tax := 5000,
    marginal_rate := 0.10, ltcg_tax := 0, ltcg_tax_rate := 0, investment_income := 0,
    niit_tax := 0, total_federal_tax := 5000, effective_tax_rate := 10,
    effective_tax_rate_agi := 6.25 }

/-- Federal input whose itemized total (charity 30000) exactly equals the
standard deduction of the synthetic table. -/
def usTieInput : USInput :=
  { tax_year := 2024, filing_status := "single", deduct_charity := 30000 }

/-- Hand-evaluated trace of the federal engine on `usTieInput`. -/
def usTieTrace : USTrace :=
  { gross_income := 0, gross_ltcg := 0, cg_long_term := 0, cg_short_term := 0,
    net_ltcg := 0, ordinary_income := 0, capital_loss_income_deduction := 0,
    agi := 0, capital_loss_carry_forward := 0, lt_loss_carry_forward := 0,
    st_loss_carry_forward := 0, salt_deduction := 0, mortgage_interest_deduction := 0,
    investment_int_deduction := 0, inv_int_carryforward := 0, medical_exp_deduction := 0,
    itemized_deductions := 30000, standard_deduction := 30000, total_deductions := 30000,
    deduction_used := "standard", taxable_ordinary_income := 0,
    taxable_capital_gains := 0, total_taxable_income := 0, ordinary_tax := 0,
    marginal_rate := 0, ltcg_tax := 0, ltcg_tax_rate := 0, investment_income := 0,
    niit_tax := 0, total_federal_tax := 0, effective_tax_rate := 0,
    effective_tax_rate_agi := 0 }

/-- The standard-exemption allocation as worded in the spec: consume the
exemption first against taxable short-term gains, then against remaining
taxable long-term gains, then against the combined ordinary-plus-investment
income, returning the three taxed bucket amounts. -/
def specExemptionAllocation (exemption stg ltg ordinv : ℚ) : ℚ × ℚ × ℚ :=
  let st_taxed := max 0 (stg - exemption)
  let remaining_after_st := max 0 (exemption - stg)
  let lt_taxed := max 0 (ltg - remaining_after_st)
  let remaining_after_lt := max 0 (remaining_after_st - ltg)
  (st_taxed, lt_taxed, max 0 (ordinv - remaining_after_lt))

/-- Scenario-A style MA input: ordinary income 100000 on the synthetic
table. -/
def maScenarioAInput : MAInput := { tax_year := 2024, ordinary_income := 100000 }

/-- Hand-evaluated trace of the MA engine on `maScenarioAInput`. -/
def maScenarioATrace : MATrace :=
  { standard_exemption := 24000, net_short_term := 0, net_long_term := 0,
    offset_balance := 0, adjusted_investment_income := 0,
    capital_loss_carryforward := 0, taxable_short_term_gains := 0,
    taxable_long_term_gains := 0, adjusted_ordinary_income := 100000,
    total_capital_gains := 0, agi := 100000, is_surtax := false, surtax := 0,
    taxable_short_term_final := 0, taxable_long_term_final := 0,
    taxable_ordinary_income := 76000, total_taxable_income := 76000,
    ordinary_rate := 0.05, long_term_rate := 0.05, short_term_rate := 0.085,
    ordinary_tax := 3800, long_term_tax := 0, short_term_tax := 0,
    total_income_tax := 3800 }

/-! ## C7: monotonicity of the progressive bracket tax

The loop of `_calculate_bracket_tax` is related to a closed form: each
bracket contributes its rate times the part of the income falling inside
it, and that closed form is monotone in the income. -/

/-- The part of `income` taxed in bracket `b`, times the rate: rate times
`max 0 (min(income, upper) - min)`, with `upper = income` for the
open-ended bracket. -/
def bracketContribution (income : ℚ) (b : Bracket) : ℚ :=
  let upper := match b.max with
    | none => income
    | some m => min income m
  b.rate * max 0 (upper - b.min)

/-- Closed form of the progressive bracket tax. -/
def taxSum (income : ℚ) (bs : List Bracket) : ℚ :=
  (bs.map (bracketContribution income)).sum

/-- A valid bracket schedule starting at `lo` with every rate at least
`r0`, as the claim words it: sorted ascending by min and contiguous
(each bracket's max is at least its min and equals the next bracket's
min), exactly the last bracket open-ended, rates non-negative and
non-decreasing. -/
inductive ValidFrom : ℚ → ℚ → List Bracket → Prop where
  | last (lo r0 : ℚ) (b : Bracket) (hmin : b.min = lo) (hmax : b.max = none)
      (hrate : r0 ≤ b.rate) : ValidFrom lo r0 [b]
  | cons (lo r0 : ℚ) (b : Bracket) (m : ℚ) (rest : List Bracket)
      (hmin : b.min = lo) (hmax : b.max = some m) (hm : lo ≤ m)
      (hrate : r0 ≤ b.rate) (hrest : ValidFrom m b.rate rest) :
      ValidFrom lo r0 (b :: rest)

/-- A valid bracket schedule: valid from the first bracket's min with all
rates non-negative. -/
def ValidSchedule (bs : List Bracket) : Prop := ∃ lo, ValidFrom lo 0 bs

/-! ## Claims -/

/-- C1: for the federal engine on cg_long_term = -10000, cg_short_term =
4000, zero prior carryforwards, the claim predicts
capital_loss_income_deduction = 3000, a combined post-cap carryforward of
3000, all of it assigned to lt_loss_carryforward.  Evaluating the code: the
positive short-term gain is routed to ordinary income rather than netted
(net_ltcg = -10000), so the combined carryforward is 7000, and the split
formula produces lt_loss_carry_forward = -70 (the ratio
abs(cg_long_term)/net_ltcg is -1 because net_ltcg is negative).  Only the
capped 3000 income deduction and st_loss_carry_forward = 0 match the
claim. -/
theorem C1_federal_netting_scenario_eval :
    ((USCalcTrace usTestData
        { tax_year := 2024, filing_status := "single",
          cg_short_term := 4000, cg_long_term := -10000 }).toOption.map
      fun t => (t.capital_loss_income_deduction, t.capital_loss_carry_forward,
                t.lt_loss_carry_forward, t.st_loss_carry_forward))
    = some (3000, 7000, -70, 0) := by
  norm_num [USCalcTrace, usTestData, usTestYearData, getFilingStatuses, usApplyNetting,
    calculateMortgageInterestDeduction, calculateInvestmentInterestDeduction,
    calculateMedicalExpenseDeduction, calculateBracketTax, calculateCapitalGainsTax,
    calculateNiit, Except.toOption, List.lookup, abs, min_def, max_def]

/-- C2: the claim states that whenever the post-carryforward net combined
capital gain is negative, lt_loss_carry_forward + st_loss_carry_forward
equals capital_loss_carry_forward.  Evaluating the code at cg_long_term =
-10000 (all other inputs zero): net_ltcg = -10000 < 0, the post-cap
carryforward is 7000, but the two split components sum to -70, refuting
the claim. -/
theorem C2_carryforward_split_sum_eval :
    ((USCalcTrace usTestData
        { tax_year := 2024, filing_status := "single",
          cg_long_term := -10000 }).toOption.map
      fun t => (t.net_ltcg, t.capital_loss_carry_forward,
                t.lt_loss_carry_forward + t.st_loss_carry_forward))
    = some (-10000, 7000, -70) := by
  norm_num [USCalcTrace, usTestData, usTestYearData, getFilingStatuses, usApplyNetting,
    calculateMortgageInterestDeduction, calculateInvestmentInterestDeduction,
    calculateMedicalExpenseDeduction, calculateBracketTax, calculateCapitalGainsTax,
    calculateNiit, Except.toOption, List.lookup, abs, min_def, max_def]

/-- C3: the claim states that every carryforward in a returned result
record is non-negative.  Evaluating the federal engine at cg_long_term =
-10000 (all other inputs zero), the returned result record has
lt_loss_carryforward = -70, a negative carryforward, refuting the claim. -/
theorem C3_negative_carryforward_eval :
    ((USCalc usTestData
        { tax_year := 2024, filing_status := "single",
          cg_long_term := -10000 }).toOption.map
      fun r => r.lt_loss_carryforward) = some (-70) ∧ (-70 : ℚ) < 0 := by
  constructor
  · norm_num [USCalc, Except.map, usResultOfTrace, round2, roundHalfEven,
      USCalcTrace, usTestData, usTestYearData, getFilingStatuses, usApplyNetting,
      calculateMortgageInterestDeduction, calculateInvestmentInterestDeduction,
      calculateMedicalExpenseDeduction, calculateBracketTax, calculateCapitalGainsTax,
      calculateNiit, Except.toOption, List.lookup, abs, min_def, max_def]
  · norm_num

/-- C6 counterexample: at short_term_before = 4000, long_term_before =
-10000 the netting step yields (0, -6000) with offset 4000, and
0 + (-6000) + 4000 = -2000 differs from 4000 + (-10000) = -6000: the
claimed equation (adding the offset to the two after-values) is false. -/
theorem C6_counterexample :
    ¬ ((signNetting 4000 (-10000)).1 + (signNetting 4000 (-10000)).2.1
        + (signNetting 4000 (-10000)).2.2 = 4000 + (-10000)) := by
  norm_num [signNetting, abs, min_def]

/-- C6 (amended): the sign-netting step conserves the combined value with
no offset term: for every short-term/long-term pair,
net_short_term_after + net_long_term_after = short_term_before +
long_term_before — the offset is subtracted from one bucket and added to
the other, so it cancels. -/
theorem C6_netting_conservation (st lt : ℚ) :
    (signNetting st lt).1 + (signNetting st lt).2.1 = st + lt := by
  unfold signNetting
  split_ifs <;> dsimp <;> ring

/-- C9: for a non-negative investment-interest expense and prior
carryforward that are not both zero, the allowed deduction plus the new
carryforward equals the expense plus the prior carryforward — the income
limitation only defers, never loses or creates, any of it.  Holds for every
investment income and short-term gain. -/
theorem C9_investment_interest_conservation
    (investment_interest_expense investment_income stcg py_carryover : ℚ)
    (h1 : 0 ≤ investment_interest_expense) (h2 : 0 ≤ py_carryover)
    (h3 : ¬(investment_interest_expense = 0 ∧ py_carryover = 0)) :
    (calculateInvestmentInterestDeduction investment_interest_expense
        investment_income stcg py_carryover).1
      + (calculateInvestmentInterestDeduction investment_interest_expense
        investment_income stcg py_carryover).2
      = investment_interest_expense + py_carryover := by
  unfold calculateInvestmentInterestDeduction
  split_ifs with hb
  · exact absurd ⟨le_antisymm hb.1 h1, le_antisymm hb.2 h2⟩ h3
  · dsimp only
    split_ifs with hc <;> dsimp <;> ring

/-- C9 witness: a concrete limited case — expense 100 with carryover 20
against net investment income 30 + 0; deduction 30 plus new carryover 90
add back to 120. -/
theorem C9_witness :
    (calculateInvestmentInterestDeduction 100 30 (-5) 20).1
      + (calculateInvestmentInterestDeduction 100 30 (-5) 20).2 = 100 + 20 :=
  C9_investment_interest_conservation 100 30 (-5) 20 (by norm_num) (by norm_num)
    (by norm_num)

/-- A key absent from the first components of an association list is not
found by `List.lookup`. -/
theorem lookup_eq_none_of_not_mem {α β : Type} [BEq α] [LawfulBEq α] (k : α)
    (l : List (α × β)) (h : k ∉ l.map Prod.fst) : l.lookup k = none := by
  induction l with
  | nil => rfl
  | cons p rest ih =>
    simp only [List.map_cons, List.mem_cons] at h
    push_neg at h
    have hne : (k == p.1) = false := beq_eq_false_iff_ne.mpr h.1
    obtain ⟨a, b⟩ := p
    simp only [List.lookup, hne, ih h.2]

/-- C5 counterexample: the MA engine called with the undefined filing
status "XXX" and a custom standard deduction completes and returns a
result record instead of raising the invalid-filing-status error — the
custom override bypasses the only filing-status validation
(src/ma_income_tax_calc.py lines 85-88). -/
theorem C5_counterexample :
    "XXX" ∉ maTestParams.standard_exemption.map Prod.fst ∧
    ((MACalcTrace maTestData
        { tax_year := 2024, filing_status := "XXX",
          custom_standard_deduction := some 0 }).toOption.isSome = true) := by
  refine ⟨by decide, ?_⟩
  norm_num [MACalcTrace, maTestData, maTestParams, signNetting, absorbCarryforward,
    Except.toOption, min_def, max_def, abs]

/-- C5 (amended): a filing status not defined for the requested tax year
makes either engine fail fast with the invalid-filing-status error and no
result record, provided that for the MA engine no custom standard
deduction override is supplied (with an override the MA engine skips the
filing-status validation entirely), and with the federal engine checking
the status against its status list, the bracket-table keys of the earliest
available year. -/
theorem C5_invalid_filing_status
    (maT : List (ℕ × MAYearParams)) (a : MAInput) (p : MAYearParams)
    (usT : List (ℕ × USYearData)) (b : USInput) (yd : USYearData)
    (hma_year : maT.lookup a.tax_year = some p)
    (hma_status : a.filing_status ∉ p.standard_exemption.map Prod.fst)
    (hma_custom : a.custom_standard_deduction = none)
    (hus_year : usT.lookup b.tax_year = some yd)
    (hus_status : b.filing_status ∉ getFilingStatuses usT) :
    MACalcTrace maT a = .error ("Invalid filing status: " ++ a.filing_status) ∧
    USCalcTrace usT b = .error "Filing status not supported" := by
  constructor
  · unfold MACalcTrace
    rw [hma_year, hma_custom]
    dsimp only
    rw [lookup_eq_none_of_not_mem a.filing_status _ hma_status]
  · unfold USCalcTrace
    rw [hus_year]
    dsimp only
    rw [if_neg hus_status]

/-- C5 witness: both engines at the concrete tables reject the undefined
status "XXX" for the supported year 2024. -/
theorem C5_witness :
    MACalcTrace maTestData { tax_year := 2024, filing_status := "XXX" } =
      .error ("Invalid filing status: " ++ "XXX") ∧
    USCalcTrace usTestData { tax_year := 2024, filing_status := "XXX" } =
      .error "Filing status not supported" :=
  C5_invalid_filing_status maTestData _ maTestParams usTestData
    { tax_year := 2024, filing_status := "XXX" } usTestYearData
    rfl (by decide) rfl rfl (by decide)

/-- Inversion of the deduction-selection block (lines 414-431 of
src/us_income_tax_calc.py): the trace fields record the itemized sum, the
larger-deduction choice and its use against taxable ordinary income
exactly as written in the source. -/
theorem usDeduction_inv (td : List (ℕ × USYearData)) (a : USInput) (t : USTrace)
    (h : USCalcTrace td a = .ok t) :
    t.total_deductions = (if t.itemized_deductions > t.standard_deduction then
      t.itemized_deductions else t.standard_deduction) ∧
    t.deduction_used = (if t.itemized_deductions > t.standard_deduction then
      "itemized" else "standard") ∧
    t.itemized_deductions = t.salt_deduction + t.mortgage_interest_deduction
      + t.investment_int_deduction + t.medical_exp_deduction + a.deduct_charity ∧
    t.taxable_ordinary_income =
      max 0 (t.ordinary_income - t.total_deductions - a.income_div_qualified) := by
  unfold USCalcTrace at h
  split at h
  · exact Except.noConfusion h
  split at h
  case isFalse => exact Except.noConfusion h
  split at h
  · exact Except.noConfusion h
  split at h
  · exact Except.noConfusion h
  dsimp only at h
  split at h
  · exact Except.noConfusion h
  split at h
  · exact Except.noConfusion h
  injection h with h
  subst h
  exact ⟨rfl, rfl, rfl, rfl⟩

/-- C8: for every federal-engine input that produces a result, the total
deduction applied to taxable income is max(itemized_total,
standard_deduction), where the itemized total is the sum of the
SALT-capped, mortgage, investment-interest, medical and charity
components, and deduction_used records which of the two was chosen
("itemized" exactly when the itemized total strictly exceeds the standard
deduction, "standard" otherwise). -/
theorem C8_deduction_selection (td : List (ℕ × USYearData)) (a : USInput)
    (t : USTrace) (h : USCalcTrace td a = .ok t) :
    t.total_deductions = max t.itemized_deductions t.standard_deduction ∧
    t.itemized_deductions = t.salt_deduction + t.mortgage_interest_deduction
      + t.investment_int_deduction + t.medical_exp_deduction + a.deduct_charity ∧
    t.taxable_ordinary_income =
      max 0 (t.ordinary_income - t.total_deductions - a.income_div_qualified) ∧
    (t.deduction_used = "itemized" ↔ t.standard_deduction < t.itemized_deductions) ∧
    (t.deduction_used = "standard" ↔ t.itemized_deductions ≤ t.standard_deduction) := by
  obtain ⟨h1, h2, h3, h4⟩ := usDeduction_inv td a t h
  refine ⟨?_, h3, h4, ?_, ?_⟩
  · rw [h1]
    split_ifs with hgt
    · exact (max_eq_left hgt.le).symm
    · exact (max_eq_right (not_lt.mp hgt)).symm
  · rw [h2]
    split_ifs with hgt
    · simp [hgt]
    · simp [hgt]
  · rw [h2]
    split_ifs with hgt
    · simp [not_le.mpr hgt]
    · simp [not_lt.mp hgt]

/-- C8 witness: the deduction-selection facts at the concrete scenario-C
input (itemized 0 vs standard 30000, so the standard deduction is used). -/
theorem C8_witness :
    usScenarioCTrace.total_deductions =
      max usScenarioCTrace.itemized_deductions usScenarioCTrace.standard_deduction ∧
    usScenarioCTrace.itemized_deductions = usScenarioCTrace.salt_deduction
      + usScenarioCTrace.mortgage_interest_deduction
      + usScenarioCTrace.investment_int_deduction
      + usScenarioCTrace.medical_exp_deduction + usScenarioCInput.deduct_charity ∧
    usScenarioCTrace.taxable_ordinary_income =
      max 0 (usScenarioCTrace.ordinary_income - usScenarioCTrace.total_deductions
        - usScenarioCInput.income_div_qualified) ∧
    (usScenarioCTrace.deduction_used = "itemized" ↔
      usScenarioCTrace.standard_deduction < usScenarioCTrace.itemized_deductions) ∧
    (usScenarioCTrace.deduction_used = "standard" ↔
      usScenarioCTrace.itemized_deductions ≤ usScenarioCTrace.standard_deduction) :=
  C8_deduction_selection usTestData usScenarioCInput usScenarioCTrace (by
    norm_num [USCalcTrace, usTestData, usTestYearData, getFilingStatuses, usApplyNetting,
      calculateMortgageInterestDeduction, calculateInvestmentInterestDeduction,
      calculateMedicalExpenseDeduction, calculateBracketTax, calculateBracketTaxGo,
      calculateCapitalGainsTax, calculateNiit, usScenarioCInput, usScenarioCTrace,
      List.lookup, abs, min_def, max_def])

/-- C10: when the itemized total exactly equals the standard deduction the
engine reports "standard" and applies the standard deduction — the strict
comparison `itemized_deductions > standard_deduction` sends ties to the
standard branch. -/
theorem C10_tie_uses_standard (td : List (ℕ × USYearData)) (a : USInput)
    (t : USTrace) (h : USCalcTrace td a = .ok t)
    (heq : t.itemized_deductions = t.standard_deduction) :
    t.deduction_used = "standard" ∧ t.total_deductions = t.standard_deduction := by
  obtain ⟨h1, h2, -, -⟩ := usDeduction_inv td a t h
  have hngt : ¬(t.itemized_deductions > t.standard_deduction) := by
    rw [heq]
    exact lt_irrefl _
  constructor
  · rw [h2, if_neg hngt]
  · rw [h1, if_neg hngt]

/-- C10 witness: the concrete tie (itemized = standard = 30000) reports
"standard". -/
theorem C10_witness :
    usTieTrace.deduction_used = "standard" ∧
    usTieTrace.total_deductions = usTieTrace.standard_deduction :=
  C10_tie_uses_standard usTestData usTieInput usTieTrace (by
    norm_num [USCalcTrace, usTestData, usTestYearData, getFilingStatuses, usApplyNetting,
      calculateMortgageInterestDeduction, calculateInvestmentInterestDeduction,
      calculateMedicalExpenseDeduction, calculateBracketTax, calculateBracketTaxGo,
      calculateCapitalGainsTax, calculateNiit, usTieInput, usTieTrace,
      List.lookup, abs, min_def, max_def]) rfl

/-- C4: for every MA-engine input that produces a result: if AGI exceeds
the standard exemption, the three final taxable buckets equal the
sequential exemption allocation (short-term first, then long-term, then
ordinary+investment); otherwise all three buckets are zero; and in both
cases each category tax is the bucket amount times (category rate +
surtax). -/
theorem C4_ma_exemption_allocation
    (T : List (ℕ × MAYearParams)) (a : MAInput) (p : MAYearParams) (t : MATrace)
    (hyear : T.lookup a.tax_year = some p)
    (h : MACalcTrace T a = .ok t) :
    (if t.agi > t.standard_exemption then
       (t.taxable_short_term_final, t.taxable_long_term_final, t.taxable_ordinary_income)
         = specExemptionAllocation t.standard_exemption t.taxable_short_term_gains
             t.taxable_long_term_gains
             (t.adjusted_ordinary_income + t.adjusted_investment_income)
     else t.taxable_short_term_final = 0 ∧ t.taxable_long_term_final = 0 ∧
       t.taxable_ordinary_income = 0) ∧
    t.ordinary_tax = t.taxable_ordinary_income * (p.ordinary_rate + t.surtax) ∧
    t.long_term_tax = t.taxable_long_term_final * (p.long_term_rate + t.surtax) ∧
    t.short_term_tax = t.taxable_short_term_final * (p.short_term_rate + t.surtax) := by
  unfold MACalcTrace at h
  rw [hyear] at h
  dsimp only at h
  split at h
  · exact Except.noConfusion h
  injection h with h
  subst h
  refine ⟨?_, rfl, rfl, rfl⟩
  dsimp only [specExemptionAllocation]
  split
  all_goals try split
  all_goals first
  | rfl
  | exact ⟨rfl, rfl, rfl⟩

/-- C4 witness: the allocation facts at the concrete scenario-A input
(AGI 100000 exceeds the 24000 exemption; taxable ordinary 76000, tax 3800
at the 5 percent rate with no surtax). -/
theorem C4_witness :
    (if maScenarioATrace.agi > maScenarioATrace.standard_exemption then
       (maScenarioATrace.taxable_short_term_final, maScenarioATrace.taxable_long_term_final,
        maScenarioATrace.taxable_ordinary_income)
         = specExemptionAllocation maScenarioATrace.standard_exemption
             maScenarioATrace.taxable_short_term_gains maScenarioATrace.taxable_long_term_gains
             (maScenarioATrace.adjusted_ordinary_income
               + maScenarioATrace.adjusted_investment_income)
     else maScenarioATrace.taxable_short_term_final = 0 ∧
       maScenarioATrace.taxable_long_term_final = 0 ∧
       maScenarioATrace.taxable_ordinary_income = 0) ∧
    maScenarioATrace.ordinary_tax =
      maScenarioATrace.taxable_ordinary_income
        * (maTestParams.ordinary_rate + maScenarioATrace.surtax) ∧
    maScenarioATrace.long_term_tax =
      maScenarioATrace.taxable_long_term_final
        * (maTestParams.long_term_rate + maScenarioATrace.surtax) ∧
    maScenarioATrace.short_term_tax =
      maScenarioATrace.taxable_short_term_final
        * (maTestParams.short_term_rate + maScenarioATrace.surtax) :=
  C4_ma_exemption_allocation maTestData maScenarioAInput maTestParams maScenarioATrace
    rfl (by
      norm_num [MACalcTrace, maTestData, maTestParams, signNetting, absorbCarryforward,
        maScenarioAInput, maScenarioATrace, List.lookup, abs, min_def, max_def])

theorem taxSum_cons (income : ℚ) (b : Bracket) (rest : List Bracket) :
    taxSum income (b :: rest) = bracketContribution income b + taxSum income rest := by
  simp [taxSum]

theorem taxSum_eq_zero : ∀ {lo r0 : ℚ} {bs : List Bracket}, ValidFrom lo r0 bs →
    ∀ {income : ℚ}, income ≤ lo → taxSum income bs = 0 := by
  intro lo r0 bs h
  induction h with
  | last lo r0 b hmin hmax hrate =>
    intro income hinc
    have h0 : max 0 (income - lo) = 0 := max_eq_left (by linarith)
    simp [taxSum, bracketContribution, hmax, hmin, h0]
  | cons lo r0 b m rest hmin hmax hm hrate hrest ih =>
    intro income hinc
    have hmle : min income m - lo ≤ 0 := by
      have := min_le_left income m
      linarith
    have h0 : max 0 (min income m - lo) = 0 := max_eq_left hmle
    rw [taxSum_cons, ih (le_trans hinc hm)]
    simp [bracketContribution, hmax, hmin, h0]

theorem rates_nonneg : ∀ {lo r0 : ℚ} {bs : List Bracket}, ValidFrom lo r0 bs →
    0 ≤ r0 → ∀ x ∈ bs, 0 ≤ x.rate := by
  intro lo r0 bs h
  induction h with
  | last lo r0 b hmin hmax hrate =>
    intro h0 x hx
    simp only [List.mem_singleton] at hx
    subst hx
    linarith
  | cons lo r0 b m rest hmin hmax hm hrate hrest ih =>
    intro h0 x hx
    rcases List.mem_cons.mp hx with hx | hx
    · subst hx
      linarith
    · exact ih (by linarith) x hx

theorem bracketContribution_nonneg (income : ℚ) (x : Bracket) (h : 0 ≤ x.rate) :
    0 ≤ bracketContribution income x := by
  unfold bracketContribution
  exact mul_nonneg h (le_max_left 0 _)

theorem taxSum_nonneg (income : ℚ) (bs : List Bracket)
    (hr : ∀ x ∈ bs, 0 ≤ x.rate) : 0 ≤ taxSum income bs := by
  induction bs with
  | nil => simp [taxSum]
  | cons b rest ih =>
    rw [taxSum_cons]
    have h1 := bracketContribution_nonneg income b (hr b (List.mem_cons_self b rest))
    have h2 := ih (fun x hx => hr x (List.mem_cons_of_mem b hx))
    linarith

theorem bracketContribution_mono (a b : ℚ) (hab : a ≤ b) (x : Bracket)
    (hr : 0 ≤ x.rate) : bracketContribution a x ≤ bracketContribution b x := by
  unfold bracketContribution
  dsimp only
  apply mul_le_mul_of_nonneg_left _ hr
  apply max_le_max le_rfl
  apply sub_le_sub_right
  cases hx : x.max with
  | none => simpa [hx] using hab
  | some m =>
    simp only [hx]
    exact min_le_min hab le_rfl

theorem taxSum_mono (a b : ℚ) (hab : a ≤ b) (bs : List Bracket)
    (hr : ∀ x ∈ bs, 0 ≤ x.rate) : taxSum a bs ≤ taxSum b bs := by
  induction bs with
  | nil => simp [taxSum]
  | cons x rest ih =>
    rw [taxSum_cons, taxSum_cons]
    have h1 := bracketContribution_mono a b hab x (hr x (List.mem_cons_self x rest))
    have h2 := ih (fun y hy => hr y (List.mem_cons_of_mem x hy))
    linarith

/-- On a valid schedule and a positive income, the bracket walk computes
the closed-form sum (on top of whatever is already accumulated). -/
theorem calculateBracketTaxGo_eq_taxSum (income : ℚ) (hpos : 0 < income) :
    ∀ {lo r0 : ℚ} {bs : List Bracket}, ValidFrom lo r0 bs →
    ∀ total marg, (calculateBracketTaxGo income bs total marg).1 = total + taxSum income bs := by
  intro lo r0 bs h
  induction h with
  | last lo r0 b hmin hmax hrate =>
    intro total marg
    have htail : taxSum income ([] : List Bracket) = 0 := by simp [taxSum]
    rw [taxSum_cons, htail]
    simp only [calculateBracketTaxGo, bracketContribution, hmax, hmin]
    split_ifs with hle
    · have h0 : max 0 (income - lo) = 0 := max_eq_left (by linarith)
      rw [h0]
      dsimp only
      ring
    · have h0 : max 0 (income - lo) = income - lo := max_eq_right (by linarith)
      rw [h0]
      dsimp only
      ring
  | cons lo r0 b m rest hmin hmax hm hrate hrest ih =>
    intro total marg
    simp only [calculateBracketTaxGo, hmax, hmin, taxSum_cons, bracketContribution]
    split_ifs with h1 h2 h3
    · have hc : max 0 (min income m - lo) = 0 := by
        apply max_eq_left
        have := min_le_left income m
        linarith
      rw [taxSum_eq_zero hrest (le_trans h1 hm), hc]
      dsimp only
      ring
    · subst h3
      linarith
    · have hmin_eq : min income m = income := min_eq_left h2
      have hc : max 0 (min income m - lo) = income - lo := by
        rw [hmin_eq]
        exact max_eq_right (by linarith)
      rw [taxSum_eq_zero hrest h2, hc]
      dsimp only
      ring
    · have hmin_eq : min income m = m := min_eq_right (le_of_lt (not_le.mp h2))
      have hc : max 0 (min income m - lo) = m - lo := by
        rw [hmin_eq]
        exact max_eq_right (by linarith)
      rw [ih (total + (m - lo) * b.rate) marg, hc]
      ring

/-- C7: for every valid bracket schedule (sorted ascending by min,
contiguous, exactly one open-ended top bracket, rates non-negative and
non-decreasing) and taxable amounts a ≤ b, the bracket tax at a is at most
the bracket tax at b. -/
theorem C7_bracket_tax_monotone (brackets : List Bracket)
    (hv : ValidSchedule brackets) (a b : ℚ) (hab : a ≤ b) :
    (calculateBracketTax a brackets).1 ≤ (calculateBracketTax b brackets).1 := by
  obtain ⟨lo, hval⟩ := hv
  have hrates : ∀ x ∈ brackets, 0 ≤ x.rate := rates_nonneg hval le_rfl
  unfold calculateBracketTax
  rcases le_or_lt a 0 with ha | ha
  · rw [if_pos ha]
    rcases le_or_lt b 0 with hb | hb
    · rw [if_pos hb]
    · rw [if_neg (not_le.mpr hb)]
      rw [calculateBracketTaxGo_eq_taxSum b hb hval 0 0]
      simpa using taxSum_nonneg b brackets hrates
  · have hb : 0 < b := lt_of_lt_of_le ha hab
    rw [if_neg (not_le.mpr ha), if_neg (not_le.mpr hb)]
    rw [calculateBracketTaxGo_eq_taxSum a ha hval 0 0,
      calculateBracketTaxGo_eq_taxSum b hb hval 0 0]
    simpa using taxSum_mono a b hab brackets hrates

/-- C7 witness: the synthetic two-bracket ordinary schedule is valid, and
the bracket tax at 30000 is at most the bracket tax at 60000. -/
theorem C7_witness :
    (calculateBracketTax 30000
      [{ min := 0, max := some 50000, rate := 0.10 },
       { min := 50000, max := none, rate := 0.22 }]).1 ≤
    (calculateBracketTax 60000
      [{ min := 0, max := some 50000, rate := 0.10 },
       { min := 50000, max := none, rate := 0.22 }]).1 :=
  C7_bracket_tax_monotone _
    ⟨0, ValidFrom.cons 0 0 { min := 0, max := some 50000, rate := 0.10 } 50000
      [{ min := 50000, max := none, rate := 0.22 }] rfl rfl (by norm_num) (by norm_num)
      (ValidFrom.last 50000 0.10 { min := 50000, max := none, rate := 0.22 }
        rfl rfl (by norm_num))⟩
    30000 60000 (by norm_num)

end TaxCalc
